import Mathlib

/-
Verification development for the stage-attributes template registry of the
habitat-sim configuration subsystem.

The embedding covers:
 * ASCII-lowercasing and substring utilities mirroring the string helpers
   used by the manager (Corrade String utilities, std::string::find);
 * the generic attributes-template registry (handle-to-ID index plus CRUD),
   modelled from the specification since AttributesManagerBase.h is not part
   of the provided sources;
 * the StageAttributesManager creation pipelines and finalization, translated
   from src/esp/assets/managers/StageAttributesManager.cpp.

External collaborators (file existence, JSON overlay reader, path joining,
extension substitution, the physics-attributes peer registry) are modelled as
components of an explicit environment record, following section 6 of the
specification.
-/

namespace HabitatSpec

/-! ## String utilities -/

/-- ASCII lowercase of one character, mirroring Corrade Utility String
lowercase (which lowercases the ASCII range only). -/
def lowChar (c : Char) : Char :=
  if 65 ≤ c.toNat ∧ c.toNat ≤ 90 then Char.ofNat (c.toNat + 32) else c

/-- Lowercase every character of a string (ASCII range). -/
def strLower (s : String) : String :=
  ⟨s.data.map lowChar⟩

/-- Does the first character list occur at the head of the second? -/
def listLeads : List Char → List Char → Bool
  | [], _ => true
  | _ :: _, [] => false
  | a :: as, b :: bs => a == b && listLeads as bs

/-- Does the first character list occur contiguously anywhere inside the
second?  The empty list occurs in every list. -/
def listSub (s : List Char) : List Char → Bool
  | [] => s.isEmpty
  | b :: bs => listLeads s (b :: bs) || listSub s bs

/-- Case-sensitive containment check on strings, mirroring
std::string::find(needle) != npos. -/
def strContains (hay needle : String) : Bool :=
  listSub needle.data hay.data

/-- Suffix check on strings, mirroring Corrade Utility String endsWith. -/
def strEndsWith (s suffix : String) : Bool :=
  listLeads suffix.data.reverse s.data.reverse

/-! ## Generic template registry

Modelled from the spec: the generic attributes-template registry of
AttributesManagerBase.h is not among the provided sources; its contract is
taken from section 4.1 of the specification (handle-to-ID bidirectional
index, overwrite-in-place on re-registration of a present handle, fresh ID
allocation otherwise, copy-on-read access, case-insensitive substring
queries with an inclusion/exclusion flag). -/

/-- Registry state for one record type: an association list from handle to
(ID, record) in insertion order, plus the next unused ID. -/
structure Registry (α : Type) where
  entries : List (String × Nat × α)
  nextId : Nat
deriving DecidableEq

/-- Look up the entry stored under a handle. -/
def findEntry {α : Type} : List (String × Nat × α) → String → Option (Nat × α)
  | [], _ => none
  | (h0, i0, r0) :: rest, h => if h0 = h then some (i0, r0) else findEntry rest h

/-- Replace the record stored under a handle, keeping its ID; leaves the list
unchanged when the handle is absent. -/
def overwriteEntry {α : Type} : List (String × Nat × α) → String → α → List (String × Nat × α)
  | [], _, _ => []
  | (h0, i0, r0) :: rest, h, rec =>
    if h0 = h then (h0, i0, rec) :: rest
    else (h0, i0, r0) :: overwriteEntry rest h rec

/-- Modelled from the spec: registerTemplate / addTemplateToLibrary.  If the
handle is already present, overwrite the stored record at the existing ID and
return that ID; otherwise allocate the next unused ID and insert. -/
def registerTemplate {α : Type} (reg : Registry α) (rec : α) (handle : String) :
    Nat × Registry α :=
  match findEntry reg.entries handle with
  | some (i, _) => (i, ⟨overwriteEntry reg.entries handle rec, reg.nextId⟩)
  | none =>
    (reg.nextId, ⟨reg.entries ++ [(handle, reg.nextId, rec)], reg.nextId + 1⟩)

/-- Modelled from the spec: getTemplateByHandle returns a copy of the stored
record, or none when the handle is absent. -/
def getTemplateByHandle {α : Type} (reg : Registry α) (handle : String) : Option α :=
  (findEntry reg.entries handle).map Prod.snd

/-- Modelled from the spec: templateLibHasHandle. -/
def templateLibHasHandle {α : Type} (reg : Registry α) (handle : String) : Bool :=
  (findEntry reg.entries handle).isSome

/-- All handles currently registered, in registry order. -/
def allHandles {α : Type} (reg : Registry α) : List String :=
  reg.entries.map (fun e => e.1)

/-- Modelled from the spec: getTemplateHandlesBySubstring.  Case-insensitive
containment match; with the flag false the complement set is returned; the
empty substring matches every handle. -/
def getTemplateHandlesBySubstring {α : Type} (reg : Registry α) (s : String)
    (withContains : Bool) : List String :=
  if withContains then
    (allHandles reg).filter (fun h => strContains (strLower h) (strLower s))
  else
    (allHandles reg).filter (fun h => ! strContains (strLower h) (strLower s))

/-! ### Registry lemmas -/

theorem findEntry_overwriteEntry_self {α : Type} (l : List (String × Nat × α))
    (h : String) (rec : α) (i : Nat) (r0 : α) (hf : findEntry l h = some (i, r0)) :
    findEntry (overwriteEntry l h rec) h = some (i, rec) := by
  induction l with
  | nil => simp [findEntry] at hf
  | cons e rest ih =>
    obtain ⟨h0, i0, v0⟩ := e
    by_cases he : h0 = h
    · subst he
      simp [findEntry, overwriteEntry] at hf ⊢
      exact hf.1
    · simp [findEntry, overwriteEntry, he] at hf ⊢
      exact ih hf

theorem findEntry_append_of_none {α : Type} (l : List (String × Nat × α))
    (h : String) (i : Nat) (rec : α) (hf : findEntry l h = none) :
    findEntry (l ++ [(h, i, rec)]) h = some (i, rec) := by
  induction l with
  | nil => simp [findEntry]
  | cons e rest ih =>
    obtain ⟨h0, i0, v0⟩ := e
    by_cases he : h0 = h
    · simp [findEntry, he] at hf
    · simp [findEntry, he] at hf ⊢
      exact ih hf

/-- After a registration, lookup under the registered handle returns the ID
reported by the registration together with the registered record. -/
theorem findEntry_registerTemplate {α : Type} (reg : Registry α) (rec : α)
    (handle : String) :
    findEntry (registerTemplate reg rec handle).2.entries handle =
      some ((registerTemplate reg rec handle).1, rec) := by
  unfold registerTemplate
  cases hf : findEntry reg.entries handle with
  | none => simpa using findEntry_append_of_none reg.entries handle reg.nextId rec hf
  | some p =>
    obtain ⟨i, r0⟩ := p
    simpa using findEntry_overwriteEntry_self reg.entries handle rec i r0 hf

/-- Read-back after registration yields the registered record. -/
theorem getTemplateByHandle_registerTemplate {α : Type} (reg : Registry α)
    (rec : α) (handle : String) :
    getTemplateByHandle (registerTemplate reg rec handle).2 handle = some rec := by
  unfold getTemplateByHandle
  rw [findEntry_registerTemplate]
  rfl

/-- Matching with the empty pattern succeeds on every character list. -/
theorem listSub_nil (l : List Char) : listSub [] l = true := by
  cases l <;> simp [listSub, listLeads, List.isEmpty]

/-- C3: for every registry and every handle, registering a record under a
handle that is already present overwrites the stored record at the existing
ID and returns that same ID, never allocating a new one; and after a second
registration of the same handle the second content supersedes the first on
read-back, under the ID of the first registration. -/
theorem c3_register_existing_handle {α : Type} (reg : Registry α) (rec : α)
    (handle : String) :
    (∀ i r0, findEntry reg.entries handle = some (i, r0) →
       (registerTemplate reg rec handle).1 = i ∧
       (registerTemplate reg rec handle).2.nextId = reg.nextId ∧
       findEntry (registerTemplate reg rec handle).2.entries handle = some (i, rec) ∧
       getTemplateByHandle (registerTemplate reg rec handle).2 handle = some rec)
    ∧ (∀ rec2,
       (registerTemplate (registerTemplate reg rec handle).2 rec2 handle).1 =
         (registerTemplate reg rec handle).1 ∧
       getTemplateByHandle
           (registerTemplate (registerTemplate reg rec handle).2 rec2 handle).2
           handle = some rec2) := by
  constructor
  · intro i r0 hf
    have hid : (registerTemplate reg rec handle).1 = i := by
      simp [registerTemplate, hf]
    refine ⟨hid, ?_, ?_, getTemplateByHandle_registerTemplate reg rec handle⟩
    · simp [registerTemplate, hf]
    · rw [← hid]
      exact findEntry_registerTemplate reg rec handle
  · intro rec2
    have hfind := findEntry_registerTemplate reg rec handle
    set p := registerTemplate reg rec handle with hp
    refine ⟨?_, getTemplateByHandle_registerTemplate _ rec2 handle⟩
    simp [registerTemplate, hfind]

/-- Witness for C3 at a concrete one-entry registry. -/
theorem c3_register_existing_handle_witness :
    (registerTemplate (⟨[("a", 0, 5)], 1⟩ : Registry Nat) 7 "a").1 = 0 ∧
    (registerTemplate (⟨[("a", 0, 5)], 1⟩ : Registry Nat) 7 "a").2.nextId = 1 ∧
    findEntry (registerTemplate (⟨[("a", 0, 5)], 1⟩ : Registry Nat) 7 "a").2.entries
      "a" = some (0, 7) ∧
    getTemplateByHandle (registerTemplate (⟨[("a", 0, 5)], 1⟩ : Registry Nat) 7 "a").2
      "a" = some 7 :=
  (c3_register_existing_handle (⟨[("a", 0, 5)], 1⟩ : Registry Nat) 7 "a").1 0 5
    (by decide)

/-- C4: a record obtained from getTemplateByHandle is a copy: for any
mutation of the copy that actually changes it, a subsequent read under the
same handle still yields the pre-mutation content, and the mutated content
becomes visible only after it is explicitly re-registered. -/
theorem c4_copy_isolation {α : Type} (reg : Registry α) (handle : String)
    (rec : α) (f : α → α) (hget : getTemplateByHandle reg handle = some rec)
    (hne : f rec ≠ rec) :
    getTemplateByHandle reg handle = some rec ∧
    getTemplateByHandle reg handle ≠ some (f rec) ∧
    getTemplateByHandle (registerTemplate reg (f rec) handle).2 handle =
      some (f rec) := by
  refine ⟨hget, ?_, getTemplateByHandle_registerTemplate reg (f rec) handle⟩
  rw [hget]
  intro hc
  exact hne (Option.some.inj hc).symm

/-- Witness for C4 at a concrete one-entry registry with successor as the
mutation. -/
theorem c4_copy_isolation_witness :
    getTemplateByHandle (⟨[("a", 0, 5)], 1⟩ : Registry Nat) "a" = some 5 ∧
    getTemplateByHandle (⟨[("a", 0, 5)], 1⟩ : Registry Nat) "a" ≠ some (Nat.succ 5) ∧
    getTemplateByHandle
      (registerTemplate (⟨[("a", 0, 5)], 1⟩ : Registry Nat) (Nat.succ 5) "a").2
      "a" = some (Nat.succ 5) :=
  c4_copy_isolation (⟨[("a", 0, 5)], 1⟩ : Registry Nat) "a" 5 Nat.succ (by decide)
    (by decide)

/-- C6: for every registry state and substring, the inclusion and exclusion
substring queries partition the full handle set (their concatenation is a
permutation of all handles and they are disjoint), the match depends only on
the lowercased substring (case-insensitive matching), and the empty substring
matches every handle. -/
theorem c6_substring_query_partition {α : Type} (reg : Registry α) (s : String) :
    List.Perm
      (getTemplateHandlesBySubstring reg s true ++
        getTemplateHandlesBySubstring reg s false)
      (allHandles reg)
    ∧ (∀ h, h ∈ getTemplateHandlesBySubstring reg s true →
        h ∉ getTemplateHandlesBySubstring reg s false)
    ∧ (∀ s2 b, strLower s = strLower s2 →
        getTemplateHandlesBySubstring reg s b = getTemplateHandlesBySubstring reg s2 b)
    ∧ getTemplateHandlesBySubstring reg "" true = allHandles reg := by
  refine ⟨?_, ?_, ?_, ?_⟩
  · simpa [getTemplateHandlesBySubstring] using
      List.filter_append_perm (fun h => strContains (strLower h) (strLower s))
        (allHandles reg)
  · intro h h1 h2
    simp [getTemplateHandlesBySubstring, List.mem_filter] at h1 h2
    simp [h1.2] at h2
  · intro s2 b hl
    simp only [getTemplateHandlesBySubstring, hl]
  · have hmatch : ∀ h : String, strContains (strLower h) (strLower "") = true := by
      intro h
      simpa [strContains, strLower] using listSub_nil (strLower h).data
    simp only [getTemplateHandlesBySubstring, if_pos]
    rw [List.filter_congr (fun x _ => hmatch x)]
    simp

/-- Witness for C6 at a concrete two-entry registry: disjointness applied to
a member of the inclusion query, and invariance of the query under a change
of case of the substring. -/
theorem c6_substring_query_partition_witness :
    "Abc" ∉ getTemplateHandlesBySubstring (⟨[("Abc", 0, 0), ("xyz", 1, 1)], 2⟩ : Registry Nat) "aB" false ∧
    getTemplateHandlesBySubstring (⟨[("Abc", 0, 0), ("xyz", 1, 1)], 2⟩ : Registry Nat) "aB" true =
      getTemplateHandlesBySubstring (⟨[("Abc", 0, 0), ("xyz", 1, 1)], 2⟩ : Registry Nat) "AB" true :=
  ⟨(c6_substring_query_partition (⟨[("Abc", 0, 0), ("xyz", 1, 1)], 2⟩ : Registry Nat) "aB").2.1
      "Abc" (by decide),
   (c6_substring_query_partition (⟨[("Abc", 0, 0), ("xyz", 1, 1)], 2⟩ : Registry Nat) "aB").2.2.1
      "AB" true (by decide)⟩

/-! ## Path helpers

External interface functions (section 6 of the spec): file existence, path
joining, extension substitution.  The existence check itself lives in the
environment record below; the deterministic path derivations are modelled
here. -/

/-- Drop the reversed characters up to and including the first dot; none when
no dot occurs. -/
def dropExtRev : List Char → Option (List Char)
  | [] => none
  | c :: rest => if c = '.' then some rest else dropExtRev rest

/-- Modelled from the spec: io removeExtension strips the extension (the part
from the last dot onward); a path without a dot is returned unchanged. -/
def removeExtension (s : String) : String :=
  match dropExtRev s.data.reverse with
  | some r => ⟨r.reverse⟩
  | none => s

/-- Modelled from the spec: io changeExtension derives a sibling path by
substituting the extension (the new extension carries its leading dot). -/
def changeExtension (s ext : String) : String :=
  removeExtension s ++ ext

/-- Drop the reversed characters up to and including the first slash; none
when no slash occurs. -/
def cutAfterSlashRev : List Char → Option (List Char)
  | [] => none
  | c :: rest => if c = '/' then some rest else cutAfterSlashRev rest

/-- Characters of a path before its last slash; the whole string when no
slash occurs (std::string substr with npos keeps the whole string). -/
def pathBeforeLastSlash (s : String) : String :=
  match cutAfterSlashRev s.data.reverse with
  | some r => ⟨r.reverse⟩
  | none => s

/-- Modelled from the spec: Corrade Directory join of a directory and a path;
an absolute path or an empty directory leaves the path unchanged. -/
def joinPath (dir p : String) : String :=
  if dir = "" then p
  else if listLeads ['/'] p.data then p
  else dir ++ "/" ++ p

/-! ## Stage attributes data model -/

/-- Coarse asset-type tags used by the stage manager (esp assets AssetType).
The numeric values of the C++ enumeration are immaterial to every claim, so
the tag is kept symbolic. -/
inductive AssetType where
  | UNKNOWN
  | SUNCG_SCENE
  | MP3D_MESH
  | INSTANCE_MESH
  | FRL_PTEX_MESH
  | PRIMITIVE
deriving DecidableEq

/-- Integer 3-vectors standing in for the Magnum Vector3 frame and physics
vectors; the code only copies these values, never computes with them, so an
exact integer carrier is faithful for every claim. -/
structure Vec3 where
  x : Int
  y : Int
  z : Int
deriving DecidableEq

/-- Stage attributes record (PhysicsStageAttributes).  Physical scalars are
only ever copied by the modelled code, so they are carried as integers. -/
structure StageAttrs where
  handle : String
  fileDirectory : String
  renderAssetHandle : String
  collisionAssetHandle : String
  renderAssetIsPrimitive : Bool
  collisionAssetIsPrimitive : Bool
  renderAssetType : AssetType
  collisionAssetType : AssetType
  semanticAssetHandle : String
  semanticAssetType : AssetType
  navmeshAssetHandle : Option String
  houseFilename : String
  lightSetup : String
  requiresLighting : Bool
  frustrumCulling : Bool
  useMeshCollision : Bool
  margin : Int
  gravity : Vec3
  frictionCoefficient : Int
  restitutionCoefficient : Int
  origin : Vec3
  orientUp : Vec3
  orientFront : Vec3
  isDirty : Bool
deriving DecidableEq

/-- Modelled from the spec: PhysicsStageAttributes create(handle); the
constructor is not among the provided sources.  Every field the claims
observe is overwritten by the shared initializer or by finalization; the
navmesh handle starts absent and the record starts dirty. -/
def defaultStageAttrs (h : String) : StageAttrs :=
  { handle := h
    fileDirectory := ""
    renderAssetHandle := ""
    collisionAssetHandle := ""
    renderAssetIsPrimitive := false
    collisionAssetIsPrimitive := false
    renderAssetType := AssetType.UNKNOWN
    collisionAssetType := AssetType.UNKNOWN
    semanticAssetHandle := ""
    semanticAssetType := AssetType.UNKNOWN
    navmeshAssetHandle := none
    houseFilename := ""
    lightSetup := ""
    requiresLighting := false
    frustrumCulling := false
    useMeshCollision := true
    margin := 0
    gravity := ⟨0, 0, 0⟩
    frictionCoefficient := 0
    restitutionCoefficient := 0
    origin := ⟨0, 0, 0⟩
    orientUp := ⟨0, 1, 0⟩
    orientFront := ⟨0, 0, -1⟩
    isDirty := true }

/-- Physics-manager attributes record: only the fields the stage manager
reads (gravity, friction, restitution). -/
structure PhysAttrs where
  gravity : Vec3
  frictionCoefficient : Int
  restitutionCoefficient : Int
deriving DecidableEq

/-- One entry of the JSON "rigid object paths" array: either a string or a
value of any other JSON type (whose payload the code never reads). -/
inductive JsonEntry where
  | jstr (s : String)
  | nonString
deriving DecidableEq

/-- Stage-configuration JSON document, reduced to the fields the stage
manager consumes (section 6 of the spec lists these as the consumed fields
for stages).  A missing or type-mismatched field is none. -/
structure JsonConfig where
  gravity : Option Vec3
  origin : Option Vec3
  semanticMeshType : Option String
  semanticMesh : Option String
  navMesh : Option String
  houseFilenameField : Option String
  lightingSetup : Option String
  rigidObjectPaths : Option (List JsonEntry)
deriving DecidableEq

/-- Modelled from the spec: the distinguished no-light key of the resource
manager; only its identity matters, never its text. -/
def NO_LIGHT_KEY : String := "no_lights"

/-- Sentinel ID for failed registration or lookup (esp ID_UNDEFINED). -/
def ID_UNDEFINED : Int := -1

/-- Environment of the stage attributes manager: the external collaborators
(file existence, JSON documents by path) and the peer registries and
manager-level configuration the creation pipelines read. -/
structure Env where
  fileExists : String → Bool
  isValidPrimitiveAttributes : String → Bool
  cfgFilepaths : String → Option String
  cfgLightSetup : String
  cfgFrustrumCulling : Bool
  physicsManagerAttributesHandle : String
  physicsLib : String → Option PhysAttrs
  jsonDocs : String → Option JsonConfig

/-! ## Stage attributes manager

Translated from src/esp/assets/managers/StageAttributesManager.cpp. -/

/-- Translation of StageAttributesManager setDefaultFileNameBasedAttributes
(lines 303 to 340): infer the asset-type tag and the default up and front
frame from filename suffix rules; the frame is applied only when setFrame is
true.  The C++ type setter callback becomes a record-update function. -/
def setDefaultFileNameBasedAttributes (attributes : StageAttrs) (setFrame : Bool)
    (fileName : String) (meshTypeSetter : AssetType → StageAttrs → StageAttrs) :
    StageAttrs :=
  let up1 : Vec3 := ⟨0, 1, 0⟩
  let up2 : Vec3 := ⟨0, 0, 1⟩
  let fwd1 : Vec3 := ⟨0, 0, -1⟩
  let fwd2 : Vec3 := ⟨0, 1, 0⟩
  let tuf : AssetType × Vec3 × Vec3 :=
    if strEndsWith fileName "_semantic.ply" then (AssetType.INSTANCE_MESH, up1, fwd1)
    else if strEndsWith fileName "mesh.ply" then (AssetType.FRL_PTEX_MESH, up2, fwd2)
    else if strEndsWith fileName "house.json" then (AssetType.SUNCG_SCENE, up1, fwd1)
    else if strEndsWith fileName ".glb" then (AssetType.MP3D_MESH, up2, fwd2)
    else (AssetType.UNKNOWN, up1, fwd1)
  let a := meshTypeSetter tuf.1 attributes
  if setFrame then { a with orientUp := tuf.2.1, orientFront := tuf.2.2 } else a

/-- Translation of StageAttributesManager initNewAttribsInternal (lines 228
to 301): the shared initializer of all creation pipelines.  The file
directory is derived from the handle (setFileDirectoryFromHandle, modelled
from the spec as the path before the last slash); render and collision
handles are seeded with the stage handle; light setup, lighting-required and
frustum-culling defaults come from manager configuration; navmesh and house
defaults come from extension substitution with configured-path overrides;
suffix rules set the per-slot types; physics defaults are pulled from the
physics-manager registry when its configured handle is registered. -/
def initNewAttribsInternal (env : Env) (newAttributes : StageAttrs) : StageAttrs :=
  let a0 := { newAttributes with fileDirectory := pathBeforeLastSlash newAttributes.handle }
  let sceneFilename := a0.handle
  let a1 := { a0 with
    renderAssetHandle := sceneFilename
    collisionAssetHandle := sceneFilename
    useMeshCollision := true
    lightSetup := env.cfgLightSetup
    requiresLighting := env.cfgLightSetup != NO_LIGHT_KEY
    frustrumCulling := env.cfgFrustrumCulling }
  let navmeshFilename :=
    match env.cfgFilepaths "navmesh" with
    | some p => p
    | none => changeExtension sceneFilename ".navmesh"
  let a2 :=
    if env.fileExists navmeshFilename then
      { a1 with navmeshAssetHandle := some navmeshFilename }
    else a1
  let houseFilename0 :=
    match env.cfgFilepaths "house" with
    | some p => p
    | none => changeExtension sceneFilename ".house"
  let houseFilename :=
    if ! env.fileExists houseFilename0 then changeExtension sceneFilename ".scn"
    else houseFilename0
  let a3 := { a2 with houseFilename := houseFilename }
  let semanticMeshFilename := removeExtension houseFilename ++ "_semantic.ply"
  let a4 := { a3 with semanticAssetHandle := semanticMeshFilename }
  let a5 := setDefaultFileNameBasedAttributes a4 true a4.renderAssetHandle
    (fun t s => { s with renderAssetType := t })
  let a6 := setDefaultFileNameBasedAttributes a5 false a5.collisionAssetHandle
    (fun t s => { s with collisionAssetType := t })
  let a7 := setDefaultFileNameBasedAttributes a6 false a6.semanticAssetHandle
    (fun t s => { s with semanticAssetType := t })
  match env.physicsLib env.physicsManagerAttributesHandle with
  | some physMgrAttributes =>
    { a7 with
      gravity := physMgrAttributes.gravity
      frictionCoefficient := physMgrAttributes.frictionCoefficient
      restitutionCoefficient := physMgrAttributes.restitutionCoefficient }
  | none => a7

/-- Translation of StageAttributesManager registerAttributesTemplateFinalize
(lines 78 to 162).  Returns the registration result ID (ID_UNDEFINED on
rejection), the resulting registry (unchanged on rejection) and the template
as mutated by finalization (unchanged on rejection, since both rejection
paths precede every setter call). -/
def registerAttributesTemplateFinalize (env : Env) (reg : Registry StageAttrs)
    (sceneAttributesTemplate : StageAttrs) (stageAttributesHandle : String) :
    Int × Registry StageAttrs × StageAttrs :=
  if sceneAttributesTemplate.renderAssetHandle = "" then
    (ID_UNDEFINED, reg, sceneAttributesTemplate)
  else
    let renderAssetHandle := sceneAttributesTemplate.renderAssetHandle
    let collisionAssetHandle := sceneAttributesTemplate.collisionAssetHandle
    let renderStep : Option StageAttrs :=
      if env.isValidPrimitiveAttributes renderAssetHandle then
        some { sceneAttributesTemplate with renderAssetIsPrimitive := true }
      else if env.fileExists renderAssetHandle then
        some { sceneAttributesTemplate with renderAssetIsPrimitive := false }
      else if strContains stageAttributesHandle "NONE" then
        some { sceneAttributesTemplate with
                 renderAssetType := AssetType.UNKNOWN
                 renderAssetIsPrimitive := false }
      else none
    match renderStep with
    | none => (ID_UNDEFINED, reg, sceneAttributesTemplate)
    | some t1 =>
      let t2 :=
        if env.isValidPrimitiveAttributes collisionAssetHandle then
          { t1 with collisionAssetIsPrimitive := true }
        else if env.fileExists collisionAssetHandle then
          { t1 with collisionAssetIsPrimitive := false }
        else if strContains stageAttributesHandle "NONE" then
          { t1 with
              collisionAssetType := AssetType.UNKNOWN
              collisionAssetIsPrimitive := false }
        else
          { t1 with
              collisionAssetHandle := renderAssetHandle
              collisionAssetIsPrimitive := t1.renderAssetIsPrimitive }
      let t3 := { t2 with isDirty := false }
      let p := registerTemplate reg t3 stageAttributesHandle
      ((p.1 : Int), p.2, t3)

/-- Modelled from the spec: postCreateRegister of the generic manager base is
not among the provided sources; it registers when asked and, mirroring the
explicit pattern of createDefaultAttributesTemplate in the stage manager
source, surfaces a failed registration as a null result. -/
def postCreateRegister (env : Env) (reg : Registry StageAttrs)
    (attributes : StageAttrs) (registerTemplateFlag : Bool) :
    Option StageAttrs × Registry StageAttrs :=
  if registerTemplateFlag then
    let r := registerAttributesTemplateFinalize env reg attributes attributes.handle
    if r.1 = ID_UNDEFINED then (none, r.2.1) else (some r.2.2, r.2.1)
  else (some attributes, reg)

/-- Translation of createDefaultAttributesTemplate (lines 164 to 181). -/
def createDefaultAttributesTemplate (env : Env) (reg : Registry StageAttrs)
    (sceneFilename : String) (registerTemplateFlag : Bool) :
    Option StageAttrs × Registry StageAttrs :=
  let sceneAttributesTemplate := initNewAttribsInternal env (defaultStageAttrs sceneFilename)
  if registerTemplateFlag then
    let r := registerAttributesTemplateFinalize env reg sceneAttributesTemplate sceneFilename
    if r.1 = ID_UNDEFINED then (none, r.2.1) else (some r.2.2, r.2.1)
  else (some sceneAttributesTemplate, reg)

/-- Translation of createPrimBasedAttributesTemplate (lines 183 to 215). -/
def createPrimBasedAttributesTemplate (env : Env) (reg : Registry StageAttrs)
    (primAssetHandle : String) (registerTemplateFlag : Bool) :
    Option StageAttrs × Registry StageAttrs :=
  if ! env.isValidPrimitiveAttributes primAssetHandle then (none, reg)
  else
    let stageAttributes := initNewAttribsInternal env (defaultStageAttrs primAssetHandle)
    let stageAttributes := { stageAttributes with margin := 0 }
    let stageAttributes := { stageAttributes with
      renderAssetType := AssetType.PRIMITIVE
      collisionAssetType := AssetType.PRIMITIVE
      useMeshCollision := false }
    postCreateRegister env reg stageAttributes registerTemplateFlag

/-- Translation of createBackCompatAttributesTemplate (lines 217 to 226). -/
def createBackCompatAttributesTemplate (env : Env) (reg : Registry StageAttrs)
    (sceneFilename : String) (registerTemplateFlag : Bool) :
    Option StageAttrs × Registry StageAttrs :=
  postCreateRegister env reg (initNewAttribsInternal env (defaultStageAttrs sceneFilename))
    registerTemplateFlag

/-- Modelled from the spec: createPhysicsAttributesFromJson of the generic
manager base is not among the provided sources.  Per the spec every pipeline
produces its record through the shared initializer, and section 6 lists the
JSON fields consumed for stages exhaustively; all of those are parsed by the
stage-specific code translated below, so the shared builder reduces to the
shared initializer applied to a fresh record. -/
def createPhysicsAttributesFromJson (env : Env) (sceneFilename : String) : StageAttrs :=
  initNewAttribsInternal env (defaultStageAttrs sceneFilename)

/-- Translation of createFileBasedAttributesTemplate (lines 342 to 441).
The JSON document lookup stands for verifyLoadJson; a none result models a
parse failure and aborts the pipeline.  The semantic-mesh override
(setJSONAssetHandleAndType, not among the provided sources) is modelled from
the spec: a specified non-empty semantic mesh path replaces the handle and
forces the instance-mesh type.  The returned string list records, in order,
the absolute paths handed to the peer object manager loadObjectConfigs
calls. -/
def createFileBasedAttributesTemplate (env : Env) (reg : Registry StageAttrs)
    (sceneFilename : String) (registerTemplateFlag : Bool) :
    Option StageAttrs × Registry StageAttrs × List String :=
  match env.jsonDocs sceneFilename with
  | none => (none, reg, [])
  | some jsonConfig =>
    let stageAttributes := createPhysicsAttributesFromJson env sceneFilename
    let sceneLocFileDir := stageAttributes.fileDirectory
    let stageAttributes :=
      match jsonConfig.gravity with
      | some g => { stageAttributes with gravity := g }
      | none => stageAttributes
    let stageAttributes :=
      match jsonConfig.origin with
      | some o => { stageAttributes with origin := o }
      | none => stageAttributes
    let stageAttributes :=
      match jsonConfig.semanticMesh with
      | some semanticFName =>
        if semanticFName ≠ "" then
          { stageAttributes with
              semanticAssetHandle := semanticFName
              semanticAssetType := AssetType.INSTANCE_MESH }
        else stageAttributes
      | none => stageAttributes
    let stageAttributes :=
      match jsonConfig.navMesh with
      | some navmeshFName =>
        { stageAttributes with
            navmeshAssetHandle := some (joinPath sceneLocFileDir navmeshFName) }
      | none => stageAttributes
    let stageAttributes :=
      match jsonConfig.houseFilenameField with
      | some houseFName =>
        { stageAttributes with houseFilename := joinPath sceneLocFileDir houseFName }
      | none => stageAttributes
    let stageAttributes :=
      match jsonConfig.lightingSetup with
      | some lightSetup => { stageAttributes with lightSetup := lightSetup }
      | none => stageAttributes
    let loads :=
      match jsonConfig.rigidObjectPaths with
      | some paths =>
        let configDirectory := pathBeforeLastSlash sceneFilename
        paths.filterMap (fun e =>
          match e with
          | JsonEntry.jstr p => some (joinPath configDirectory p)
          | JsonEntry.nonString => none)
      | none => []
    let r := postCreateRegister env reg stageAttributes registerTemplateFlag
    (r.1, r.2, loads)

/-- The four mutually exclusive creation pipelines. -/
inductive Pipeline where
  | primBased
  | jsonFileBased
  | backCompat
  | defaultPipe
deriving DecidableEq

/-- Handle classification of createAttributesTemplate (lines 34 to 76),
kept with the exact branch structure of the source. -/
def classifyStageHandle (env : Env) (stageAttributesHandle : String) : Pipeline :=
  let strHandle := strLower stageAttributesHandle
  let fileExists := env.fileExists stageAttributesHandle
  if env.isValidPrimitiveAttributes stageAttributesHandle then Pipeline.primBased
  else if fileExists then
    if strContains strHandle "scene_config.json" && fileExists then
      Pipeline.jsonFileBased
    else Pipeline.backCompat
  else Pipeline.defaultPipe

/-- Translation of createAttributesTemplate (lines 34 to 76): classify the
handle and run the selected pipeline.  The third component records the
loadObjectConfigs delegations of the JSON pipeline (empty for the others). -/
def createAttributesTemplate (env : Env) (reg : Registry StageAttrs)
    (stageAttributesHandle : String) (registerTemplateFlag : Bool) :
    Option StageAttrs × Registry StageAttrs × List String :=
  let strHandle := strLower stageAttributesHandle
  let fileExists := env.fileExists stageAttributesHandle
  if env.isValidPrimitiveAttributes stageAttributesHandle then
    let r := createPrimBasedAttributesTemplate env reg stageAttributesHandle
      registerTemplateFlag
    (r.1, r.2, [])
  else if fileExists then
    if strContains strHandle "scene_config.json" && fileExists then
      createFileBasedAttributesTemplate env reg stageAttributesHandle
        registerTemplateFlag
    else
      let r := createBackCompatAttributesTemplate env reg stageAttributesHandle
        registerTemplateFlag
      (r.1, r.2, [])
  else
    let r := createDefaultAttributesTemplate env reg stageAttributesHandle
      registerTemplateFlag
    (r.1, r.2, [])

/-! ## Concrete objects shared by witnesses and counterexamples -/

/-- Empty stage registry. -/
def regEmpty : Registry StageAttrs := ⟨[], 0⟩

/-- Base environment: no files, no primitives, no configured paths, no JSON
documents, the no-light key configured. -/
def envBase : Env :=
  { fileExists := fun _ => false
    isValidPrimitiveAttributes := fun _ => false
    cfgFilepaths := fun _ => none
    cfgLightSetup := NO_LIGHT_KEY
    cfgFrustrumCulling := true
    physicsManagerAttributesHandle := ""
    physicsLib := fun _ => none
    jsonDocs := fun _ => none }

/-- A registration result ID is a natural number, hence never the sentinel. -/
theorem intOfNat_ne_undefined (n : Nat) : (n : Int) ≠ ID_UNDEFINED := by
  simp only [ID_UNDEFINED]
  omega

/-! ## C1: stage finalization rejection -/

/-- C1: stage finalization returns the UNDEFINED sentinel and leaves the
registry untouched exactly when the render-asset handle is empty, or the
render-asset handle is neither a recognized primitive nor an existing file
while the stage handle does not contain the literal marker token NONE; and
when the marker is present while the render handle is otherwise
unresolvable, the render asset type is forced to unknown with is-primitive
false and the record is registered. -/
theorem c1_stage_finalize_reject_iff (env : Env) (reg : Registry StageAttrs)
    (t : StageAttrs) (handle : String) :
    (((registerAttributesTemplateFinalize env reg t handle).1 = ID_UNDEFINED ∧
      (registerAttributesTemplateFinalize env reg t handle).2.1 = reg) ↔
      (t.renderAssetHandle = "" ∨
       (env.isValidPrimitiveAttributes t.renderAssetHandle = false ∧
        env.fileExists t.renderAssetHandle = false ∧
        strContains handle "NONE" = false)))
    ∧ (t.renderAssetHandle ≠ "" →
       env.isValidPrimitiveAttributes t.renderAssetHandle = false →
       env.fileExists t.renderAssetHandle = false →
       strContains handle "NONE" = true →
       (registerAttributesTemplateFinalize env reg t handle).1 ≠ ID_UNDEFINED ∧
       getTemplateByHandle (registerAttributesTemplateFinalize env reg t handle).2.1
           handle = some (registerAttributesTemplateFinalize env reg t handle).2.2 ∧
       (registerAttributesTemplateFinalize env reg t handle).2.2.renderAssetType =
         AssetType.UNKNOWN ∧
       (registerAttributesTemplateFinalize env reg t handle).2.2.renderAssetIsPrimitive =
         false) := by
  constructor
  · by_cases hre : t.renderAssetHandle = ""
    · simp [registerAttributesTemplateFinalize, hre]
    · cases hp : env.isValidPrimitiveAttributes t.renderAssetHandle with
      | true =>
        simp only [registerAttributesTemplateFinalize, if_neg hre, hp]
        simp [hre, hp, intOfNat_ne_undefined]
      | false =>
        cases hf : env.fileExists t.renderAssetHandle with
        | true =>
          simp only [registerAttributesTemplateFinalize, if_neg hre, hp, hf]
          simp [hre, hp, hf, intOfNat_ne_undefined]
        | false =>
          cases hn : strContains handle "NONE" with
          | true =>
            simp only [registerAttributesTemplateFinalize, if_neg hre, hp, hf, hn]
            simp [hre, hp, hf, hn, intOfNat_ne_undefined]
          | false =>
            simp only [registerAttributesTemplateFinalize, if_neg hre, hp, hf, hn]
            simp [hre, hp, hf, hn]
  · intro hre hp hf hn
    refine ⟨?_, ?_, ?_, ?_⟩
    · simp [registerAttributesTemplateFinalize, hre, hp, hf, hn, intOfNat_ne_undefined]
    · simp only [registerAttributesTemplateFinalize, if_neg hre, hp, hf, hn]
      simp only [Bool.false_eq_true, if_false, if_true]
      exact getTemplateByHandle_registerTemplate _ _ _
    · simp only [registerAttributesTemplateFinalize, if_neg hre, hp, hf, hn]
      simp only [Bool.false_eq_true, if_false, if_true]
      split <;> (try split) <;> simp
    · simp only [registerAttributesTemplateFinalize, if_neg hre, hp, hf, hn]
      simp only [Bool.false_eq_true, if_false, if_true]
      split <;> (try split) <;> simp

/-- Witness for C1: with no files and no primitives, a template whose render
handle is the unresolvable string NONE still registers under the stage
handle NONE, with unknown render type and a non-primitive render slot. -/
theorem c1_stage_finalize_reject_iff_witness :
    (registerAttributesTemplateFinalize envBase regEmpty
        { defaultStageAttrs "NONE" with
            renderAssetHandle := "NONE", collisionAssetHandle := "NONE" } "NONE").1 ≠
      ID_UNDEFINED ∧
    getTemplateByHandle
        (registerAttributesTemplateFinalize envBase regEmpty
          { defaultStageAttrs "NONE" with
              renderAssetHandle := "NONE", collisionAssetHandle := "NONE" } "NONE").2.1
        "NONE" =
      some (registerAttributesTemplateFinalize envBase regEmpty
          { defaultStageAttrs "NONE" with
              renderAssetHandle := "NONE", collisionAssetHandle := "NONE" } "NONE").2.2 ∧
    (registerAttributesTemplateFinalize envBase regEmpty
        { defaultStageAttrs "NONE" with
            renderAssetHandle := "NONE", collisionAssetHandle := "NONE" } "NONE").2.2.renderAssetType =
      AssetType.UNKNOWN ∧
    (registerAttributesTemplateFinalize envBase regEmpty
        { defaultStageAttrs "NONE" with
            renderAssetHandle := "NONE", collisionAssetHandle := "NONE" } "NONE").2.2.renderAssetIsPrimitive =
      false :=
  (c1_stage_finalize_reject_iff envBase regEmpty
      { defaultStageAttrs "NONE" with
          renderAssetHandle := "NONE", collisionAssetHandle := "NONE" } "NONE").2
    (by decide) (by decide) (by decide) (by decide)

/-! ## C2: collision fallback -/

/-- Environment where the only recognized primitive is cylinderSolid and no
file exists. -/
def envC2 : Env :=
  { envBase with isValidPrimitiveAttributes := fun s => s == "cylinderSolid" }

/-- Template whose render handle is a recognized primitive while the
collision handle resolves as nothing, registered under a stage handle that
contains the marker token NONE. -/
def tC2 : StageAttrs :=
  { defaultStageAttrs "NONE_stage" with
      renderAssetHandle := "cylinderSolid"
      collisionAssetHandle := "junk" }

/-- Counterexample to C2 as stated: the render handle resolves as a
primitive, the collision handle resolves as neither primitive nor file, and
finalization succeeds, yet since the stage handle contains the NONE marker,
the collision slot is not overridden: the finalized record keeps collision
handle junk, different from the render handle, and its is-primitive flags
disagree. -/
theorem c2_collision_fallback_counterexample :
    envC2.isValidPrimitiveAttributes tC2.renderAssetHandle = true ∧
    envC2.isValidPrimitiveAttributes tC2.collisionAssetHandle = false ∧
    envC2.fileExists tC2.collisionAssetHandle = false ∧
    (registerAttributesTemplateFinalize envC2 regEmpty tC2 "NONE_stage").1 ≠
      ID_UNDEFINED ∧
    (registerAttributesTemplateFinalize envC2 regEmpty tC2
          "NONE_stage").2.2.collisionAssetHandle ≠
      (registerAttributesTemplateFinalize envC2 regEmpty tC2
          "NONE_stage").2.2.renderAssetHandle ∧
    (registerAttributesTemplateFinalize envC2 regEmpty tC2
          "NONE_stage").2.2.collisionAssetIsPrimitive ≠
      (registerAttributesTemplateFinalize envC2 regEmpty tC2
          "NONE_stage").2.2.renderAssetIsPrimitive := by
  decide

/-- C2 amended: for every stage record with a non-empty render-asset handle
that resolves (as a recognized primitive or an existing file) and a
collision-asset handle that resolves as neither, and whose stage handle does
not contain the no-asset marker token NONE, finalization does not fail and
the collision slot is overridden to mirror the render slot: after
finalization the collision handle equals the render handle and the two
is-primitive flags match; the finalized record is what the registry stores. -/
theorem c2_collision_fallback_amended (env : Env) (reg : Registry StageAttrs)
    (t : StageAttrs) (handle : String)
    (hre : t.renderAssetHandle ≠ "")
    (hres : env.isValidPrimitiveAttributes t.renderAssetHandle = true ∨
      env.fileExists t.renderAssetHandle = true)
    (hcp : env.isValidPrimitiveAttributes t.collisionAssetHandle = false)
    (hcf : env.fileExists t.collisionAssetHandle = false)
    (hnone : strContains handle "NONE" = false) :
    (registerAttributesTemplateFinalize env reg t handle).1 ≠ ID_UNDEFINED ∧
    (registerAttributesTemplateFinalize env reg t handle).2.2.collisionAssetHandle =
      (registerAttributesTemplateFinalize env reg t handle).2.2.renderAssetHandle ∧
    (registerAttributesTemplateFinalize env reg t handle).2.2.collisionAssetIsPrimitive =
      (registerAttributesTemplateFinalize env reg t handle).2.2.renderAssetIsPrimitive ∧
    getTemplateByHandle (registerAttributesTemplateFinalize env reg t handle).2.1
        handle =
      some (registerAttributesTemplateFinalize env reg t handle).2.2 := by
  rcases hres with hrp | hrf
  · refine ⟨?_, ?_, ?_, ?_⟩
    · simp [registerAttributesTemplateFinalize, hre, hrp, hcp, hcf, hnone,
        intOfNat_ne_undefined]
    · simp [registerAttributesTemplateFinalize, hre, hrp, hcp, hcf, hnone]
    · simp [registerAttributesTemplateFinalize, hre, hrp, hcp, hcf, hnone]
    · simp only [registerAttributesTemplateFinalize, if_neg hre, hrp, hcp, hcf, hnone]
      simp only [Bool.false_eq_true, if_false, if_true]
      exact getTemplateByHandle_registerTemplate _ _ _
  · cases hrp : env.isValidPrimitiveAttributes t.renderAssetHandle with
    | true =>
      refine ⟨?_, ?_, ?_, ?_⟩
      · simp [registerAttributesTemplateFinalize, hre, hrp, hcp, hcf, hnone,
          intOfNat_ne_undefined]
      · simp [registerAttributesTemplateFinalize, hre, hrp, hcp, hcf, hnone]
      · simp [registerAttributesTemplateFinalize, hre, hrp, hcp, hcf, hnone]
      · simp only [registerAttributesTemplateFinalize, if_neg hre, hrp, hcp, hcf, hnone]
        simp only [Bool.false_eq_true, if_false, if_true]
        exact getTemplateByHandle_registerTemplate _ _ _
    | false =>
      refine ⟨?_, ?_, ?_, ?_⟩
      · simp [registerAttributesTemplateFinalize, hre, hrp, hrf, hcp, hcf, hnone,
          intOfNat_ne_undefined]
      · simp [registerAttributesTemplateFinalize, hre, hrp, hrf, hcp, hcf, hnone]
      · simp [registerAttributesTemplateFinalize, hre, hrp, hrf, hcp, hcf, hnone]
      · simp only [registerAttributesTemplateFinalize, if_neg hre, hrp, hrf, hcp, hcf,
          hnone]
        simp only [Bool.false_eq_true, if_false, if_true]
        exact getTemplateByHandle_registerTemplate _ _ _

/-- Witness for the amended C2: same record and environment as the
counterexample but registered under a stage handle without the marker; the
collision slot then mirrors the render slot. -/
theorem c2_collision_fallback_amended_witness :
    (registerAttributesTemplateFinalize envC2 regEmpty tC2 "plain_stage").1 ≠
      ID_UNDEFINED ∧
    (registerAttributesTemplateFinalize envC2 regEmpty tC2
          "plain_stage").2.2.collisionAssetHandle =
      (registerAttributesTemplateFinalize envC2 regEmpty tC2
          "plain_stage").2.2.renderAssetHandle ∧
    (registerAttributesTemplateFinalize envC2 regEmpty tC2
          "plain_stage").2.2.collisionAssetIsPrimitive =
      (registerAttributesTemplateFinalize envC2 regEmpty tC2
          "plain_stage").2.2.renderAssetIsPrimitive ∧
    getTemplateByHandle (registerAttributesTemplateFinalize envC2 regEmpty tC2
          "plain_stage").2.1 "plain_stage" =
      some (registerAttributesTemplateFinalize envC2 regEmpty tC2 "plain_stage").2.2 :=
  c2_collision_fallback_amended envC2 regEmpty tC2 "plain_stage" (by decide)
    (Or.inl (by decide)) (by decide) (by decide) (by decide)

/-! ## C5: pipeline selection -/

/-- C5: createAttributesTemplate selects exactly one of four mutually
exclusive pipelines, first match winning: a handle recognized as a primitive
goes to the primitive-based pipeline; otherwise an existing file whose
lowercased name contains the stage-configuration marker goes to the JSON
file-based pipeline; otherwise any other existing file goes to the
back-compatibility pipeline; otherwise the default pipeline runs.  The
creation entry point behaves as the pipeline selected by this
classification. -/
theorem c5_pipeline_selection (env : Env) (handle : String) :
    (env.isValidPrimitiveAttributes handle = true →
      classifyStageHandle env handle = Pipeline.primBased) ∧
    (env.isValidPrimitiveAttributes handle = false →
      env.fileExists handle = true →
      strContains (strLower handle) "scene_config.json" = true →
      classifyStageHandle env handle = Pipeline.jsonFileBased) ∧
    (env.isValidPrimitiveAttributes handle = false →
      env.fileExists handle = true →
      strContains (strLower handle) "scene_config.json" = false →
      classifyStageHandle env handle = Pipeline.backCompat) ∧
    (env.isValidPrimitiveAttributes handle = false →
      env.fileExists handle = false →
      classifyStageHandle env handle = Pipeline.defaultPipe) ∧
    (∀ (reg : Registry StageAttrs) (registerTemplateFlag : Bool),
      createAttributesTemplate env reg handle registerTemplateFlag =
        match classifyStageHandle env handle with
        | Pipeline.primBased =>
          ((createPrimBasedAttributesTemplate env reg handle registerTemplateFlag).1,
           (createPrimBasedAttributesTemplate env reg handle registerTemplateFlag).2,
           [])
        | Pipeline.jsonFileBased =>
          createFileBasedAttributesTemplate env reg handle registerTemplateFlag
        | Pipeline.backCompat =>
          ((createBackCompatAttributesTemplate env reg handle registerTemplateFlag).1,
           (createBackCompatAttributesTemplate env reg handle registerTemplateFlag).2,
           [])
        | Pipeline.defaultPipe =>
          ((createDefaultAttributesTemplate env reg handle registerTemplateFlag).1,
           (createDefaultAttributesTemplate env reg handle registerTemplateFlag).2,
           [])) := by
  refine ⟨?_, ?_, ?_, ?_, ?_⟩
  · intro hp
    simp [classifyStageHandle, hp]
  · intro hp hf hm
    simp [classifyStageHandle, hp, hf, hm]
  · intro hp hf hm
    simp [classifyStageHandle, hp, hf, hm]
  · intro hp hf
    simp [classifyStageHandle, hp, hf]
  · intro reg registerTemplateFlag
    cases hp : env.isValidPrimitiveAttributes handle with
    | true => simp [classifyStageHandle, createAttributesTemplate, hp]
    | false =>
      cases hf : env.fileExists handle with
      | true =>
        cases hm : strContains (strLower handle) "scene_config.json" with
        | true => simp [classifyStageHandle, createAttributesTemplate, hp, hf, hm]
        | false => simp [classifyStageHandle, createAttributesTemplate, hp, hf, hm]
      | false => simp [classifyStageHandle, createAttributesTemplate, hp, hf]

/-- Witness for C5: in the base environment, a handle that is neither a
primitive nor an existing file selects the default pipeline. -/
theorem c5_pipeline_selection_witness :
    classifyStageHandle envBase "fresh_label" = Pipeline.defaultPipe :=
  (c5_pipeline_selection envBase "fresh_label").2.2.2.1 (by decide) (by decide)

/-! ## C7: back-compatibility scenario for box.glb -/

/-- Environment family for the box.glb scenario: box.glb exists, box.navmesh
exists exactly when the parameter says so, nothing else exists, no JSON
documents, no primitives, no configured paths. -/
def envC7 (navmeshExists : Bool) : Env :=
  { envBase with
      fileExists := fun s => s == "box.glb" || (s == "box.navmesh" && navmeshExists) }

/-- Counterexample to C7 as stated: registering box.glb through the
back-compatibility pipeline stores a record whose render asset type is the
MP3D mesh type selected by the .glb suffix rule, not the unknown type the
claim asserts. -/
theorem c7_backcompat_box_glb_counterexample :
    (getTemplateByHandle
        (createAttributesTemplate (envC7 false) regEmpty "box.glb" true).2.1
        "box.glb").map (fun r => r.renderAssetType) = some AssetType.MP3D_MESH ∧
    AssetType.MP3D_MESH ≠ AssetType.UNKNOWN := by
  decide

/-- C7 amended: registering handle box.glb (an existing file with no JSON
sibling, taking the back-compatibility pipeline) stores a record whose
render and collision handles both equal box.glb, whose is-primitive flags are
false for both slots, whose render and collision asset types are the MP3D
mesh type (the .glb packed-mesh suffix rule), and whose navmesh handle
equals box.navmesh exactly when that file exists on disk, else remains
absent. -/
theorem c7_backcompat_box_glb_amended (navmeshExists : Bool) :
    classifyStageHandle (envC7 navmeshExists) "box.glb" = Pipeline.backCompat ∧
    (getTemplateByHandle
        (createAttributesTemplate (envC7 navmeshExists) regEmpty "box.glb" true).2.1
        "box.glb").map (fun r => r.renderAssetHandle) = some "box.glb" ∧
    (getTemplateByHandle
        (createAttributesTemplate (envC7 navmeshExists) regEmpty "box.glb" true).2.1
        "box.glb").map (fun r => r.collisionAssetHandle) = some "box.glb" ∧
    (getTemplateByHandle
        (createAttributesTemplate (envC7 navmeshExists) regEmpty "box.glb" true).2.1
        "box.glb").map (fun r => r.renderAssetIsPrimitive) = some false ∧
    (getTemplateByHandle
        (createAttributesTemplate (envC7 navmeshExists) regEmpty "box.glb" true).2.1
        "box.glb").map (fun r => r.collisionAssetIsPrimitive) = some false ∧
    (getTemplateByHandle
        (createAttributesTemplate (envC7 navmeshExists) regEmpty "box.glb" true).2.1
        "box.glb").map (fun r => r.renderAssetType) = some AssetType.MP3D_MESH ∧
    (getTemplateByHandle
        (createAttributesTemplate (envC7 navmeshExists) regEmpty "box.glb" true).2.1
        "box.glb").map (fun r => r.collisionAssetType) = some AssetType.MP3D_MESH ∧
    (getTemplateByHandle
        (createAttributesTemplate (envC7 navmeshExists) regEmpty "box.glb" true).2.1
        "box.glb").map (fun r => r.navmeshAssetHandle) =
      some (if navmeshExists then some "box.navmesh" else none) := by
  cases navmeshExists <;> decide

/-! ## C8: navmesh, house and semantic default derivation -/

/-- Environment exhibiting the divergence of C8: a configured navmesh path
that does not exist on disk, while the extension-substituted navmesh file
does exist; the house file does not exist. -/
def envC8 : Env :=
  { envBase with
      fileExists := fun s => s == "a.glb" || s == "a.navmesh"
      cfgFilepaths := fun k => if k = "navmesh" then some "custom.nav" else none }

/-- Counterexample to C8 as stated: with a configured navmesh path that does
not exist while the substituted default a.navmesh does exist, the claim
would keep the default and store it, but the code follows the configured
path unconditionally and stores nothing; and with a.house missing, the house
filename falls back to the .scn substitution instead of remaining the .house
substitution the claim asserts. -/
theorem c8_default_handles_counterexample :
    (initNewAttribsInternal envC8 (defaultStageAttrs "a.glb")).navmeshAssetHandle =
      none ∧
    envC8.fileExists (changeExtension "a.glb" ".navmesh") = true ∧
    (initNewAttribsInternal envC8 (defaultStageAttrs "a.glb")).houseFilename ≠
      changeExtension "a.glb" ".house" ∧
    (initNewAttribsInternal envC8 (defaultStageAttrs "a.glb")).houseFilename =
      changeExtension "a.glb" ".scn" := by
  decide

/-- C8 amended: in the shared initializer the navmesh filename is the
.navmesh extension substitution on the stage handle unless an explicit
configured path is present, in which case the configured path is used
unconditionally; the navmesh handle is stored only when the chosen file
exists, else it remains absent.  The house filename is the .house
substitution, replaced by the configured path when present; when the chosen
file does not exist it falls back to the .scn substitution of the stage
handle.  The semantic-mesh handle equals the final house filename with its
extension removed and the suffix _semantic.ply appended. -/
theorem c8_default_handles_amended (env : Env) (handle : String) :
    (initNewAttribsInternal env (defaultStageAttrs handle)).navmeshAssetHandle =
      (if env.fileExists
            ((env.cfgFilepaths "navmesh").getD (changeExtension handle ".navmesh")) then
         some ((env.cfgFilepaths "navmesh").getD (changeExtension handle ".navmesh"))
       else none) ∧
    (initNewAttribsInternal env (defaultStageAttrs handle)).houseFilename =
      (if env.fileExists
            ((env.cfgFilepaths "house").getD (changeExtension handle ".house")) then
         (env.cfgFilepaths "house").getD (changeExtension handle ".house")
       else changeExtension handle ".scn") ∧
    (initNewAttribsInternal env (defaultStageAttrs handle)).semanticAssetHandle =
      removeExtension
          (initNewAttribsInternal env (defaultStageAttrs handle)).houseFilename ++
        "_semantic.ply" := by
  cases hnav : env.cfgFilepaths "navmesh" <;>
    cases hhouse : env.cfgFilepaths "house" <;>
      cases hphys : env.physicsLib env.physicsManagerAttributesHandle <;>
        simp [initNewAttribsInternal, setDefaultFileNameBasedAttributes, hnav, hhouse,
          hphys, defaultStageAttrs] <;>
          split <;> (try split) <;> simp_all

/-! ## Lighting preservation lemmas -/

/-- The shared initializer sets the lighting-required flag from the
manager-level light-setup key. -/
theorem initNew_requiresLighting (env : Env) (t : StageAttrs) :
    (initNewAttribsInternal env t).requiresLighting =
      (env.cfgLightSetup != NO_LIGHT_KEY) := by
  cases hnav : env.cfgFilepaths "navmesh" <;>
    cases hhouse : env.cfgFilepaths "house" <;>
      cases hphys : env.physicsLib env.physicsManagerAttributesHandle <;>
        simp [initNewAttribsInternal, setDefaultFileNameBasedAttributes, hnav, hhouse,
          hphys] <;>
          split <;> simp

/-- The shared initializer copies the manager-level light-setup key. -/
theorem initNew_lightSetup (env : Env) (t : StageAttrs) :
    (initNewAttribsInternal env t).lightSetup = env.cfgLightSetup := by
  cases hnav : env.cfgFilepaths "navmesh" <;>
    cases hhouse : env.cfgFilepaths "house" <;>
      cases hphys : env.physicsLib env.physicsManagerAttributesHandle <;>
        simp [initNewAttribsInternal, setDefaultFileNameBasedAttributes, hnav, hhouse,
          hphys] <;>
          split <;> simp

/-- Finalization never touches the light-setup key or the lighting-required
flag of the template. -/
theorem finalize_preserves_lighting (env : Env) (reg : Registry StageAttrs)
    (t : StageAttrs) (handle : String) :
    (registerAttributesTemplateFinalize env reg t handle).2.2.requiresLighting =
      t.requiresLighting ∧
    (registerAttributesTemplateFinalize env reg t handle).2.2.lightSetup =
      t.lightSetup := by
  by_cases hre : t.renderAssetHandle = ""
  · simp [registerAttributesTemplateFinalize, hre]
  · cases hp : env.isValidPrimitiveAttributes t.renderAssetHandle <;>
      cases hf : env.fileExists t.renderAssetHandle <;>
        cases hn : strContains handle "NONE" <;>
          simp [registerAttributesTemplateFinalize, hre, hp, hf, hn] <;>
            split <;> (try split) <;> simp

/-- A record surfaced by postCreateRegister has the light-setup key and
lighting-required flag of the record handed in. -/
theorem postCreateRegister_preserves_lighting (env : Env) (reg : Registry StageAttrs)
    (attrs : StageAttrs) (flag : Bool) (rec : StageAttrs)
    (h : (postCreateRegister env reg attrs flag).1 = some rec) :
    rec.requiresLighting = attrs.requiresLighting ∧
    rec.lightSetup = attrs.lightSetup := by
  cases flag with
  | false =>
    simp [postCreateRegister] at h
    rw [← h]
    exact ⟨rfl, rfl⟩
  | true =>
    simp only [postCreateRegister, if_true] at h
    split at h
    · simp at h
    · simp at h
      rw [← h]
      exact finalize_preserves_lighting env reg attrs attrs.handle

/-- A record surfaced by the default pipeline carries the manager-level
light-setup key and the flag derived from it. -/
theorem createDefault_preserves_lighting (env : Env) (reg : Registry StageAttrs)
    (sceneFilename : String) (flag : Bool) (rec : StageAttrs)
    (h : (createDefaultAttributesTemplate env reg sceneFilename flag).1 = some rec) :
    rec.requiresLighting = (env.cfgLightSetup != NO_LIGHT_KEY) ∧
    rec.lightSetup = env.cfgLightSetup := by
  cases flag with
  | false =>
    simp [createDefaultAttributesTemplate] at h
    rw [← h]
    exact ⟨initNew_requiresLighting env _, initNew_lightSetup env _⟩
  | true =>
    simp only [createDefaultAttributesTemplate, if_true] at h
    split at h
    · simp at h
    · simp at h
      rw [← h]
      have hfin := finalize_preserves_lighting env reg
        (initNewAttribsInternal env (defaultStageAttrs sceneFilename)) sceneFilename
      rw [hfin.1, hfin.2, initNew_requiresLighting, initNew_lightSetup]
      exact ⟨rfl, rfl⟩

/-! ## C9: lighting-required flag across pipelines -/

/-- C9: every record produced by any creation pipeline has its
lighting-required flag true exactly when the manager-level light-setup key
differs from the no-light key; and in the JSON file-based pipeline a
lighting-setup override changes the light-setup key to the configured value
while the flag is still governed by the manager-level key alone. -/
theorem c9_requires_lighting_flag (env : Env) (reg : Registry StageAttrs)
    (handle : String) (registerTemplateFlag : Bool) :
    (∀ rec, (createAttributesTemplate env reg handle registerTemplateFlag).1 =
        some rec →
      rec.requiresLighting = (env.cfgLightSetup != NO_LIGHT_KEY)) ∧
    (∀ cfg ls rec, classifyStageHandle env handle = Pipeline.jsonFileBased →
      env.jsonDocs handle = some cfg → cfg.lightingSetup = some ls →
      (createAttributesTemplate env reg handle registerTemplateFlag).1 = some rec →
      rec.lightSetup = ls) := by
  constructor
  · intro rec hrec
    cases hp : env.isValidPrimitiveAttributes handle with
    | true =>
      simp [createAttributesTemplate, hp] at hrec
      simp [createPrimBasedAttributesTemplate, hp] at hrec
      obtain ⟨h1, _⟩ := postCreateRegister_preserves_lighting _ _ _ _ _ hrec
      rw [h1]
      simp [initNew_requiresLighting]
    | false =>
      cases hf : env.fileExists handle with
      | true =>
        cases hm : strContains (strLower handle) "scene_config.json" with
        | true =>
          simp [createAttributesTemplate, hp, hf, hm] at hrec
          cases hdoc : env.jsonDocs handle with
          | none => simp [createFileBasedAttributesTemplate, hdoc] at hrec
          | some cfg =>
            simp only [createFileBasedAttributesTemplate, hdoc] at hrec
            obtain ⟨h1, _⟩ := postCreateRegister_preserves_lighting _ _ _ _ _ hrec
            rw [h1]
            obtain ⟨og, oo, osmt, osm, onv, ohf2, ols, orp⟩ := cfg
            cases og <;> cases oo <;> cases osm <;> cases onv <;> cases ohf2 <;>
              cases ols <;>
                simp [createPhysicsAttributesFromJson, initNew_requiresLighting] <;>
                  split <;> simp [initNew_requiresLighting]
        | false =>
          simp [createAttributesTemplate, hp, hf, hm] at hrec
          simp [createBackCompatAttributesTemplate] at hrec
          obtain ⟨h1, _⟩ := postCreateRegister_preserves_lighting _ _ _ _ _ hrec
          rw [h1, initNew_requiresLighting]
      | false =>
        simp [createAttributesTemplate, hp, hf] at hrec
        exact (createDefault_preserves_lighting _ _ _ _ _ hrec).1
  · intro cfg ls rec hclass hdoc hls hrec
    cases hp : env.isValidPrimitiveAttributes handle with
    | true => simp [classifyStageHandle, hp] at hclass
    | false =>
      cases hf : env.fileExists handle with
      | true =>
        cases hm : strContains (strLower handle) "scene_config.json" with
        | true =>
          simp [createAttributesTemplate, hp, hf, hm] at hrec
          simp only [createFileBasedAttributesTemplate, hdoc] at hrec
          obtain ⟨_, h2⟩ := postCreateRegister_preserves_lighting _ _ _ _ _ hrec
          rw [h2]
          obtain ⟨og, oo, osmt, osm, onv, ohf2, ols, orp⟩ := cfg
          simp at hls
          subst hls
          simp
        | false => simp [classifyStageHandle, hp, hf, hm] at hclass
      | false => simp [classifyStageHandle, hp, hf] at hclass

/-- JSON document used by the C9 witness: only a lighting-setup override. -/
def cfgC9 : JsonConfig :=
  { gravity := none
    origin := none
    semanticMeshType := none
    semanticMesh := none
    navMesh := none
    houseFilenameField := none
    lightingSetup := some "fancy"
    rigidObjectPaths := none }

/-- Environment of the C9 witness: one existing stage-config JSON file. -/
def envC9 : Env :=
  { envBase with
      fileExists := fun s => s == "my_scene_config.json"
      jsonDocs := fun s => if s = "my_scene_config.json" then some cfgC9 else none }

/-- Record produced by the JSON pipeline in the C9 witness environment. -/
def recC9 : StageAttrs :=
  ((createAttributesTemplate envC9 regEmpty "my_scene_config.json" false).1).getD
    (defaultStageAttrs "")

/-- Witness for C9: in a concrete environment configured with the no-light
key and a JSON lighting-setup override, the produced record keeps the flag
derived from the manager key while its light-setup key is the overridden
value. -/
theorem c9_requires_lighting_flag_witness :
    recC9.requiresLighting = (envC9.cfgLightSetup != NO_LIGHT_KEY) ∧
    recC9.lightSetup = "fancy" :=
  ⟨(c9_requires_lighting_flag envC9 regEmpty "my_scene_config.json" false).1 recC9
      (by decide),
   (c9_requires_lighting_flag envC9 regEmpty "my_scene_config.json" false).2 cfgC9
      "fancy" recC9 (by decide) (by decide) (by decide) (by decide)⟩

/-! ## C10: rigid object paths delegation -/

/-- C10: in the JSON file-based pipeline, the loader delegations are exactly
the string entries of the rigid-object-paths array, each resolved relative to
the directory of the config file, with every non-string entry skipped
individually; and the stage record itself is still produced despite such
malformed entries. -/
theorem c10_rigid_object_paths (env : Env) (reg : Registry StageAttrs)
    (handle : String) (registerTemplateFlag : Bool) (cfg : JsonConfig)
    (entries : List JsonEntry)
    (hdoc : env.jsonDocs handle = some cfg)
    (hpaths : cfg.rigidObjectPaths = some entries) :
    (createFileBasedAttributesTemplate env reg handle registerTemplateFlag).2.2 =
      entries.filterMap (fun e =>
        match e with
        | JsonEntry.jstr p => some (joinPath (pathBeforeLastSlash handle) p)
        | JsonEntry.nonString => none) ∧
    ((createFileBasedAttributesTemplate env reg handle false).1).isSome = true := by
  constructor
  · simp only [createFileBasedAttributesTemplate, hdoc]
    simp [hpaths]
  · simp [createFileBasedAttributesTemplate, hdoc, postCreateRegister]

/-- JSON document of the C10 witness: two string path entries around one
non-string entry. -/
def cfgC10 : JsonConfig :=
  { gravity := none
    origin := none
    semanticMeshType := none
    semanticMesh := none
    navMesh := none
    houseFilenameField := none
    lightingSetup := none
    rigidObjectPaths := some [JsonEntry.jstr "objA", JsonEntry.nonString,
      JsonEntry.jstr "objB"] }

/-- Environment of the C10 witness. -/
def envC10 : Env :=
  { envBase with
      fileExists := fun s => s == "dir/my_scene_config.json"
      jsonDocs := fun s => if s = "dir/my_scene_config.json" then some cfgC10 else none }

/-- Witness for C10: the malformed middle entry is skipped while both string
entries are resolved against the config directory, and the record is still
created. -/
theorem c10_rigid_object_paths_witness :
    (createFileBasedAttributesTemplate envC10 regEmpty "dir/my_scene_config.json"
        false).2.2 = ["dir/objA", "dir/objB"] ∧
    ((createFileBasedAttributesTemplate envC10 regEmpty "dir/my_scene_config.json"
        false).1).isSome = true := by
  have h := c10_rigid_object_paths envC10 regEmpty "dir/my_scene_config.json" false
    cfgC10 [JsonEntry.jstr "objA", JsonEntry.nonString, JsonEntry.jstr "objB"]
    (by decide) (by decide)
  refine ⟨?_, h.2⟩
  rw [h.1]
  decide

end HabitatSpec
